import Mathlib

/-!
Verification of the GENESIS autonomous-agent core against its specification.

The TypeScript source is shallowly embedded: JavaScript numbers are modelled
as exact rationals, `Date.now()` values and other timestamps as integers,
`Math.random()` draws as explicit rational parameters in [0,1), and
asynchronous collaborator calls as explicit outcome parameters.  Each
definition carries a reference to the source location it embeds.
-/

namespace Genesis

/-- Agent role enumeration, from src/types/agent.ts (AgentRole). -/
inductive AgentRole where
  | EXPLORER
  | BUILDER
  | ANALYST
  | COORDINATOR
  | GUARDIAN
deriving DecidableEq, Repr

/-- Agent lifecycle status, from src/types/agent.ts (AgentStatus). -/
inductive AgentStatus where
  | CREATED
  | ACTIVE
  | PAUSED
  | COMPLETED
deriving DecidableEq, Repr

/-- Agent metadata record, from src/types/agent.ts (Agent.metadata). -/
structure AgentMetadata where
  creationTx : String
  missionProgress : ℚ
  lastActive : ℤ
  successCount : ℕ
  failureCount : ℕ
  currentTask : Option String
  taskHistory : List String
deriving DecidableEq, Repr

/-- Agent record, from src/types/agent.ts (Agent). -/
structure Agent where
  id : String
  role : AgentRole
  mission : String
  walletAddress : String
  createdAt : ℤ
  createdBy : String
  status : AgentStatus
  metadata : AgentMetadata
deriving DecidableEq, Repr

/-- Decision type enumeration, from src/types/decision.ts (DecisionType). -/
inductive DecisionType where
  | CREATE_AGENT
  | COORDINATE_AGENTS
  | EVOLVE_STRATEGY
  | WAIT_AND_OBSERVE
  | DELEGATE_TASK
  | ANALYZE_PERFORMANCE
deriving DecidableEq, Repr

/-- Parameter maps attached to options and decisions.  The engine only ever
stores keys mapping to lists of agent ids (targetAgents, candidateAgents),
so the opaque JS object is modelled as an association list. -/
abbrev DecisionParams := List (String × List String)

/-- Decision option, from src/types/decision.ts (DecisionOption). -/
structure DecisionOption where
  type : DecisionType
  weight : ℚ
  reasoning : String
  parameters : DecisionParams
deriving DecidableEq, Repr

/-- Formal decision, from src/types/decision.ts (Decision).  The optional
agentId field is always set to madeBy by createDecision. -/
structure Decision where
  id : String
  type : DecisionType
  reasoning : String
  parameters : DecisionParams
  timestamp : ℤ
  confidence : ℚ
  madeBy : String
  agentId : String
deriving DecidableEq, Repr

/-- Evolution metrics snapshot, from src/types/system.ts (EvolutionMetrics). -/
structure EvolutionMetrics where
  evolutionScore : ℚ
  totalEvolutions : ℕ
  lastEvolutionTime : ℤ
deriving DecidableEq, Repr

/-- Observed system state, from src/types/system.ts (SystemState). -/
structure SystemState where
  agentCount : ℕ
  activeAgents : List Agent
  recentDecisions : List Decision
  walletBalances : List (String × ℚ)
  evolutionMetrics : EvolutionMetrics
  timestamp : ℤ
deriving DecidableEq, Repr

/-! ## Decision engine (src/core/decision-engine.ts) -/

/-- The decision weight vector owned by the DecisionEngine: one rational per
decision type (decisionWeights field). -/
abbrev Weights := DecisionType → ℚ

/-- Initial base weights set by the DecisionEngine constructor
(src/core/decision-engine.ts lines 11-21). -/
def initialWeights : Weights
  | .CREATE_AGENT => 3/10
  | .COORDINATE_AGENTS => 3/20
  | .EVOLVE_STRATEGY => 1/10
  | .WAIT_AND_OBSERVE => 1/10
  | .DELEGATE_TASK => 1/4
  | .ANALYZE_PERFORMANCE => 1/10

/-- Adjustment picked at the top of DecisionEngine.updateWeights:
success yields +0.05, failure -0.05. -/
def adjustment (success : Bool) : ℚ :=
  if success then 1/20 else -(1/20)

/-- Weight update on action outcome, from DecisionEngine.updateWeights
(src/core/decision-engine.ts lines 131-141): adjust by plus or minus 0.05
and clamp between 0.05 and 0.9. -/
def updateWeights (w : Weights) (decisionType : DecisionType) (success : Bool) : Weights :=
  fun t =>
    if t = decisionType then
      max (1/20) (min (9/10) (w decisionType + adjustment success))
    else w t

/-- A finite sequence of updateWeights calls applied in order. -/
def applyUpdates (w : Weights) (updates : List (DecisionType × Bool)) : Weights :=
  updates.foldl (fun acc u => updateWeights acc u.1 u.2) w

/-- The clamp Math.max(0.05, Math.min(0.9, weight)) applied at the end of
every calculate*Weight method. -/
def clampWeight (x : ℚ) : ℚ := max (1/20) (min (9/10) x)

/-- From DecisionEngine.calculateCreateAgentWeight
(src/core/decision-engine.ts lines 155-165). -/
def calculateCreateAgentWeight (w : Weights) (state : SystemState) : ℚ :=
  let weight := w .CREATE_AGENT
  let weight :=
    if state.agentCount < 3 then weight * (7/4)
    else if state.agentCount ≥ 5 then weight * (1/4)
    else weight
  clampWeight weight

/-- From DecisionEngine.calculateCoordinateWeight
(src/core/decision-engine.ts lines 167-177). -/
def calculateCoordinateWeight (w : Weights) (state : SystemState) : ℚ :=
  let weight := w .COORDINATE_AGENTS
  let weight := if state.agentCount ≥ 3 then weight * 2 else weight * (1/2)
  clampWeight weight

/-- From DecisionEngine.calculateEvolveWeight
(src/core/decision-engine.ts lines 179-187). -/
def calculateEvolveWeight (w : Weights) (state : SystemState) : ℚ :=
  let weight := w .EVOLVE_STRATEGY
  let weight :=
    if state.evolutionMetrics.evolutionScore < 1/2 then weight * (3/2) else weight
  clampWeight weight

/-- From DecisionEngine.calculateWaitWeight
(src/core/decision-engine.ts lines 189-197). -/
def calculateWaitWeight (w : Weights) (state : SystemState) : ℚ :=
  let weight := w .WAIT_AND_OBSERVE
  let weight := if state.recentDecisions.length < 5 then weight * (7/10) else weight
  clampWeight weight

/-- The child agents of a state: active agents other than genesis_root
(filter used in calculateDelegateTaskWeight and getDelegateTaskReasoning). -/
def childAgents (state : SystemState) : List Agent :=
  state.activeAgents.filter (fun a => a.id ≠ "genesis_root")

/-- From DecisionEngine.calculateDelegateTaskWeight
(src/core/decision-engine.ts lines 199-217). -/
def calculateDelegateTaskWeight (w : Weights) (state : SystemState) : ℚ :=
  let weight := w .DELEGATE_TASK
  let child := childAgents state
  let weight := if child.length > 0 then weight * (3/2) else weight * (1/10)
  let idle := child.filter (fun a => a.metadata.currentTask = none)
  let weight :=
    if (idle.length : ℚ) > (child.length : ℚ) / 2 then weight * (13/10) else weight
  clampWeight weight

/-- From DecisionEngine.calculateAnalyzeWeight
(src/core/decision-engine.ts lines 219-233). -/
def calculateAnalyzeWeight (w : Weights) (state : SystemState) : ℚ :=
  let weight := w .ANALYZE_PERFORMANCE
  let weight := if state.recentDecisions.length ≥ 5 then weight * (3/2) else weight
  let weight := if state.agentCount ≥ 3 then weight * (13/10) else weight
  clampWeight weight

/-- From DecisionEngine.getCreateAgentReasoning
(src/core/decision-engine.ts lines 236-244). -/
def getCreateAgentReasoning (state : SystemState) : String :=
  if state.agentCount = 0 then
    "No agents exist yet. Creating first agent to bootstrap the ecosystem."
  else if state.agentCount < 3 then
    "Only " ++ toString state.agentCount ++
      " agents active. Need more agents to build robust ecosystem."
  else
    "System has " ++ toString state.agentCount ++
      " agents. Consider adding specialized agent for new capabilities."

/-- From DecisionEngine.getCoordinateReasoning
(src/core/decision-engine.ts lines 246-248). -/
def getCoordinateReasoning (state : SystemState) : String :=
  toString state.agentCount ++
    " agents active. Coordination can optimize their collective performance."

/-- From DecisionEngine.getEvolveReasoning (src/core/decision-engine.ts
lines 250-252); the toFixed(2) decimal rendering is abstracted as toString. -/
def getEvolveReasoning (state : SystemState) : String :=
  "Evolution score: " ++ toString state.evolutionMetrics.evolutionScore ++
    ". Adjusting strategy based on performance."

/-- From DecisionEngine.getWaitReasoning
(src/core/decision-engine.ts lines 254-256). -/
def getWaitReasoning (state : SystemState) : String :=
  "System stable with " ++ toString state.agentCount ++
    " agents. Observing current state before next action."

/-- From DecisionEngine.getDelegateTaskReasoning
(src/core/decision-engine.ts lines 258-265). -/
def getDelegateTaskReasoning (state : SystemState) : String :=
  let child := childAgents state
  let idle := child.filter (fun a => a.metadata.currentTask = none)
  if idle.length > 0 then
    toString idle.length ++
      " idle agents available. Delegating role-specific tasks to utilize the ecosystem."
  else
    toString child.length ++
      " child agents active. Assigning new work to keep the ecosystem productive."

/-- From DecisionEngine.getAnalyzeReasoning
(src/core/decision-engine.ts lines 267-269). -/
def getAnalyzeReasoning (state : SystemState) : String :=
  "System has " ++ toString state.recentDecisions.length ++
    " recent decisions. Analyzing performance to optimize strategy."

/-- From DecisionEngine.generateOptions (src/core/decision-engine.ts
lines 26-78): one option per decision type, in source push order. -/
def generateOptions (w : Weights) (state : SystemState) : List DecisionOption :=
  [ { type := .CREATE_AGENT
      weight := calculateCreateAgentWeight w state
      reasoning := getCreateAgentReasoning state
      parameters := [] },
    { type := .COORDINATE_AGENTS
      weight := calculateCoordinateWeight w state
      reasoning := getCoordinateReasoning state
      parameters := [("targetAgents", state.activeAgents.map (fun a => a.id))] },
    { type := .EVOLVE_STRATEGY
      weight := calculateEvolveWeight w state
      reasoning := getEvolveReasoning state
      parameters := [] },
    { type := .WAIT_AND_OBSERVE
      weight := calculateWaitWeight w state
      reasoning := getWaitReasoning state
      parameters := [] },
    { type := .DELEGATE_TASK
      weight := calculateDelegateTaskWeight w state
      reasoning := getDelegateTaskReasoning state
      parameters :=
        [("candidateAgents",
          (state.activeAgents.filter (fun a => a.id ≠ "genesis_root")).map
            (fun a => a.id))] },
    { type := .ANALYZE_PERFORMANCE
      weight := calculateAnalyzeWeight w state
      reasoning := getAnalyzeReasoning state
      parameters := [] } ]

/-- From DecisionEngine.applyRandomness (src/core/decision-engine.ts
lines 274-277): multiply by 1 + (r*2 - 1)*variance where r is the
Math.random() draw for this call. -/
def applyRandomness (weight variance r : ℚ) : ℚ :=
  weight * (1 + (r * 2 - 1) * variance)

/-- The jitter map at the start of selectDecision (lines 85-88): one
Math.random() draw per option, modelled by indexing the draw stream. -/
def randomizeOptions (rand : ℕ → ℚ) : ℕ → List DecisionOption → List DecisionOption
  | _, [] => []
  | i, o :: rest =>
    { o with weight := applyRandomness o.weight (1/5) (rand i) } ::
      randomizeOptions rand (i + 1) rest

/-- Total of the (jittered) weights, from line 91 of selectDecision. -/
def totalWeight (options : List DecisionOption) : ℚ :=
  (options.map (fun o => o.weight)).sum

/-- Weight normalization step of selectDecision (lines 92-95). -/
def normalizeOptions (options : List DecisionOption) : List DecisionOption :=
  let total := totalWeight options
  options.map (fun o => { o with weight := o.weight / total })

/-- Cumulative-weight scan of selectDecision (lines 99-106): return the
first option whose running cumulative weight reaches the draw. -/
def selectLoop (random : ℚ) : ℚ → List DecisionOption → Option DecisionOption
  | _, [] => none
  | cumulative, o :: rest =>
    if random ≤ cumulative + o.weight then some o
    else selectLoop random (cumulative + o.weight) rest

/-- Stand-in for the undefined value JavaScript would produce when
indexing the last element of an empty array; reachable only when
selectDecision is applied to an empty option list. -/
def undefinedOption : DecisionOption :=
  { type := .WAIT_AND_OBSERVE, weight := 0, reasoning := "", parameters := [] }

/-- From DecisionEngine.selectDecision (src/core/decision-engine.ts
lines 83-110): jitter each weight, normalize, draw by cumulative weight,
fall back to the last option. -/
def selectDecision (rand : ℕ → ℚ) (random : ℚ) (options : List DecisionOption) :
    DecisionOption :=
  let randomizedOptions := randomizeOptions rand 0 options
  let normalizedOptions := normalizeOptions randomizedOptions
  match selectLoop random 0 normalizedOptions with
  | some o => o
  | none => normalizedOptions.getLast?.getD undefinedOption

/-- From DecisionEngine.createDecision (src/core/decision-engine.ts
lines 115-126): the fresh random id suffix and the Date.now() reading are
explicit parameters. -/
def createDecision (option : DecisionOption) (madeBy : String) (idSuffix : String)
    (now : ℤ) : Decision :=
  { id := "decision_" ++ idSuffix
    type := option.type
    reasoning := option.reasoning
    parameters := option.parameters
    timestamp := now
    confidence := option.weight
    madeBy := madeBy
    agentId := madeBy }

/-! ## Evolve phase score update (src/core/genesis.ts) -/

/-- Evolution-score update performed by GenesisAgent.evolve
(src/core/genesis.ts lines 307-309):
newScore = Math.min(1.0, score + (success ? 0.01 : -0.005)).
Note the source applies no lower clamp. -/
def evolveScore (score : ℚ) (success : Bool) : ℚ :=
  min 1 (score + if success then 1/100 else -(1/200))

/-! ## Claim C1 -/

/-- Claim C1 (code bug): the Evolve phase is claimed to clamp the evolution
score to [0,1], but GenesisAgent.evolve only clamps from above with
Math.min(1.0, ...).  A failed cycle starting from score 0 (which lies in
[0,1]) produces -0.005, below the claimed lower bound; the upper clamp of
the spec scenario (0.97 success to 0.98) does hold. -/
theorem evolveScore_drops_below_zero :
    evolveScore 0 false = -(1/200) ∧ evolveScore 0 false < 0 ∧
      evolveScore (97/100) true = 98/100 := by
  refine ⟨?_, ?_, ?_⟩ <;> norm_num [evolveScore]

/-! ## Claim C2 -/

/-- Invariant of the decision weight vector: every component lies in the
clamp interval [0.05, 0.9]. -/
def WeightsInv (w : Weights) : Prop :=
  ∀ t, 1/20 ≤ w t ∧ w t ≤ 9/10

theorem weightsInv_initial : WeightsInv initialWeights := by
  intro t
  cases t <;> norm_num [initialWeights]

theorem weightsInv_updateWeights (w : Weights) (dt : DecisionType) (s : Bool)
    (h : WeightsInv w) : WeightsInv (updateWeights w dt s) := by
  intro t
  unfold updateWeights
  by_cases ht : t = dt
  · rw [if_pos ht]
    exact ⟨le_max_left _ _, max_le (by norm_num) (min_le_left _ _)⟩
  · rw [if_neg ht]
    exact h t

theorem weightsInv_applyUpdates (updates : List (DecisionType × Bool)) :
    ∀ w : Weights, WeightsInv w → WeightsInv (applyUpdates w updates) := by
  induction updates with
  | nil => intro w h; exact h
  | cons u rest ih =>
      intro w h
      exact ih _ (weightsInv_updateWeights w u.1 u.2 h)

/-- Iterated reinforcement of a single decision type with a fixed outcome. -/
def repeatUpdate (t : DecisionType) (s : Bool) (n : ℕ) (w : Weights) : Weights :=
  (fun v => updateWeights v t s)^[n] w

theorem repeatUpdate_success_closed (t : DecisionType) (w : Weights)
    (hlo : 1/20 ≤ w t) (hhi : w t ≤ 9/10) :
    ∀ n : ℕ, repeatUpdate t true n w t = min (9/10) (w t + n * (1/20)) := by
  intro n
  induction n with
  | zero =>
      simp only [repeatUpdate, Function.iterate_zero, id_eq, Nat.cast_zero, zero_mul,
        add_zero]
      rw [min_eq_right hhi]
  | succ n ih =>
      have step : repeatUpdate t true (n + 1) w =
          updateWeights (repeatUpdate t true n w) t true := by
        simp [repeatUpdate, Function.iterate_succ_apply']
      have hadj : adjustment true = 1/20 := rfl
      rw [step]
      unfold updateWeights
      rw [if_pos rfl, ih, hadj]
      have hn0 : (0:ℚ) ≤ (n:ℚ) * (1/20) := by positivity
      have hprev : 1/20 ≤ min (9/10) (w t + (n:ℚ) * (1/20)) := by
        refine le_min (by norm_num) (by linarith)
      rw [max_eq_right (le_min (by norm_num) (by linarith))]
      rcases le_total (w t + (n:ℚ) * (1/20)) (9/10) with hle | hge
      · rw [min_eq_right hle]
        congr 1
        push_cast
        ring
      · have h1 : (9:ℚ)/10 ≤ w t + ((n + 1 : ℕ) : ℚ) * (1/20) := by
          push_cast
          linarith
        rw [min_eq_left hge, min_eq_left (by norm_num : (9:ℚ)/10 ≤ 9/10 + 1/20),
          min_eq_left h1]

theorem repeatUpdate_failure_closed (t : DecisionType) (w : Weights)
    (hlo : 1/20 ≤ w t) (hhi : w t ≤ 9/10) :
    ∀ n : ℕ, repeatUpdate t false n w t = max (1/20) (w t - n * (1/20)) := by
  intro n
  induction n with
  | zero =>
      simp only [repeatUpdate, Function.iterate_zero, id_eq, Nat.cast_zero, zero_mul,
        sub_zero]
      rw [max_eq_right hlo]
  | succ n ih =>
      have step : repeatUpdate t false (n + 1) w =
          updateWeights (repeatUpdate t false n w) t false := by
        simp [repeatUpdate, Function.iterate_succ_apply']
      have hadj : adjustment false = -(1/20) := rfl
      rw [step]
      unfold updateWeights
      rw [if_pos rfl, ih, hadj]
      have hn0 : (0:ℚ) ≤ (n:ℚ) * (1/20) := by positivity
      have hprevhi : max (1/20) (w t - (n:ℚ) * (1/20)) ≤ 9/10 := by
        refine max_le (by norm_num) (by linarith)
      rw [min_eq_right (by linarith :
        max (1/20) (w t - (n:ℚ) * (1/20)) + -(1/20) ≤ (9:ℚ)/10)]
      rcases le_total (1/20 : ℚ) (w t - (n:ℚ) * (1/20)) with hge | hle
      · rw [max_eq_right hge]
        rw [show w t - (n:ℚ) * (1/20) + -(1/20) = w t - ((n:ℚ) * (1/20) + 1/20) by ring]
        congr 1
        push_cast
        ring
      · have h1 : w t - ((n + 1 : ℕ) : ℚ) * (1/20) ≤ 1/20 := by
          push_cast
          linarith
        rw [max_eq_left hle, max_eq_left (by norm_num : (1:ℚ)/20 + -(1/20) ≤ 1/20),
          max_eq_left h1]

/-- Claim C2: starting from the constructor weight vector, every component
stays within [0.05, 0.9] after any finite sequence of updateWeights calls;
moreover, from any reachable state, 17 or more consecutive successes for one
decision type pin its weight at exactly 0.9, and 17 or more consecutive
failures pin it at exactly 0.05 (in particular the saturated value is stable
under further calls of the same kind). -/
theorem decisionWeights_bounds_and_saturation (updates : List (DecisionType × Bool)) :
    (∀ t, 1/20 ≤ applyUpdates initialWeights updates t ∧
        applyUpdates initialWeights updates t ≤ 9/10) ∧
    (∀ t n, 17 ≤ n →
        repeatUpdate t true n (applyUpdates initialWeights updates) t = 9/10) ∧
    (∀ t n, 17 ≤ n →
        repeatUpdate t false n (applyUpdates initialWeights updates) t = 1/20) := by
  have hinv := weightsInv_applyUpdates updates initialWeights weightsInv_initial
  refine ⟨hinv, ?_, ?_⟩
  · intro t n hn
    rw [repeatUpdate_success_closed t _ (hinv t).1 (hinv t).2 n]
    have hn17 : (17:ℚ) ≤ (n:ℚ) := by exact_mod_cast hn
    have : (17:ℚ) * (1/20) ≤ (n:ℚ) * (1/20) := by linarith
    exact min_eq_left (by linarith [(hinv t).1])
  · intro t n hn
    rw [repeatUpdate_failure_closed t _ (hinv t).1 (hinv t).2 n]
    have hn17 : (17:ℚ) ≤ (n:ℚ) := by exact_mod_cast hn
    have : (17:ℚ) * (1/20) ≤ (n:ℚ) * (1/20) := by linarith
    exact max_eq_left (by linarith [(hinv t).2])

/-- Witness for claim C2: the empty update sequence keeps CREATE_AGENT at
0.3 inside the bounds, and 17 straight successes saturate it at 0.9. -/
theorem decisionWeights_bounds_and_saturation_witness :
    (1/20 ≤ applyUpdates initialWeights [] DecisionType.CREATE_AGENT ∧
      applyUpdates initialWeights [] DecisionType.CREATE_AGENT ≤ 9/10) ∧
    repeatUpdate DecisionType.CREATE_AGENT true 17
      (applyUpdates initialWeights []) DecisionType.CREATE_AGENT = 9/10 ∧
    repeatUpdate DecisionType.CREATE_AGENT false 17
      (applyUpdates initialWeights []) DecisionType.CREATE_AGENT = 1/20 := by
  obtain ⟨h1, h2, h3⟩ := decisionWeights_bounds_and_saturation []
  exact ⟨h1 _, h2 _ 17 (by norm_num), h3 _ 17 (by norm_num)⟩

/-! ## Agent coordinator health reports (src/core/agent-coordinator.ts) -/

/-- Health classification values used by AgentReport.healthStatus. -/
inductive HealthStatus where
  | HEALTHY
  | DEGRADED
  | CRITICAL
deriving DecidableEq, Repr

/-- Per-agent performance report, from src/types/system.ts (AgentReport). -/
structure AgentReport where
  agentId : String
  role : AgentRole
  tasksCompleted : ℕ
  tasksFailed : ℕ
  successRate : ℚ
  avgTaskDuration : ℚ
  lastActive : ℤ
  healthStatus : HealthStatus
deriving DecidableEq, Repr

/-- Success-rate computation of AgentCoordinator.generateAgentReport
(src/core/agent-coordinator.ts lines 107-108): successCount / totalTasks,
taken as 1.0 when no tasks were run. -/
def successRateOf (successCount failureCount : ℕ) : ℚ :=
  if successCount + failureCount > 0 then
    (successCount : ℚ) / ((successCount : ℚ) + (failureCount : ℚ))
  else 1

/-- Health classification of AgentCoordinator.generateAgentReport
(src/core/agent-coordinator.ts lines 111-116). -/
def healthStatusOf (successRate : ℚ) (timeSinceActive : ℤ) : HealthStatus :=
  if successRate < 3/10 ∨ timeSinceActive > 300000 then .CRITICAL
  else if successRate < 6/10 ∨ timeSinceActive > 120000 then .DEGRADED
  else .HEALTHY

/-- From AgentCoordinator.generateAgentReport
(src/core/agent-coordinator.ts lines 106-128); the Date.now() reading is
the explicit parameter now. -/
def generateAgentReport (agent : Agent) (now : ℤ) : AgentReport :=
  let successRate := successRateOf agent.metadata.successCount agent.metadata.failureCount
  let timeSinceActive := now - agent.metadata.lastActive
  { agentId := agent.id
    role := agent.role
    tasksCompleted := agent.metadata.successCount
    tasksFailed := agent.metadata.failureCount
    successRate := successRate
    avgTaskDuration := 0
    lastActive := agent.metadata.lastActive
    healthStatus := healthStatusOf successRate timeSinceActive }

/-! ## Claim C6 -/

/-- Claim C6: the health classification is CRITICAL exactly when the success
rate (1.0 when no tasks were run) is below 0.3 or the agent has been idle
for more than 300000 ms; otherwise DEGRADED exactly when the rate is below
0.6 or the idle time exceeds 120000 ms; otherwise HEALTHY. -/
theorem generateAgentReport_health_classification (agent : Agent) (now : ℤ) :
    ((generateAgentReport agent now).healthStatus = .CRITICAL ↔
      (successRateOf agent.metadata.successCount agent.metadata.failureCount < 3/10 ∨
        now - agent.metadata.lastActive > 300000)) ∧
    (¬(successRateOf agent.metadata.successCount agent.metadata.failureCount < 3/10 ∨
        now - agent.metadata.lastActive > 300000) →
      ((generateAgentReport agent now).healthStatus = .DEGRADED ↔
        (successRateOf agent.metadata.successCount agent.metadata.failureCount < 6/10 ∨
          now - agent.metadata.lastActive > 120000))) ∧
    (¬(successRateOf agent.metadata.successCount agent.metadata.failureCount < 3/10 ∨
        now - agent.metadata.lastActive > 300000) →
      ¬(successRateOf agent.metadata.successCount agent.metadata.failureCount < 6/10 ∨
        now - agent.metadata.lastActive > 120000) →
      (generateAgentReport agent now).healthStatus = .HEALTHY) ∧
    (agent.metadata.successCount + agent.metadata.failureCount = 0 →
      successRateOf agent.metadata.successCount agent.metadata.failureCount = 1) := by
  unfold generateAgentReport healthStatusOf
  dsimp only
  refine ⟨?_, ?_, ?_, ?_⟩
  · split_ifs with h1 h2 <;> simp_all
  · intro hnc
    split_ifs with h1 h2 <;> simp_all
  · intro hnc hnd
    split_ifs with h1 h2 <;> simp_all
  · intro hz
    unfold successRateOf
    rw [if_neg (by omega)]

/-- Witness for claim C6: an agent with one success, one failure and no idle
time is classified DEGRADED (rate 0.5 is in [0.3, 0.6)). -/
theorem generateAgentReport_health_classification_witness :
    (generateAgentReport
      { id := "agent_w6", role := .EXPLORER, mission := "m", walletAddress := "addr"
        createdAt := 0, createdBy := "genesis_root", status := .ACTIVE
        metadata :=
          { creationTx := "", missionProgress := 0, lastActive := 0, successCount := 1
            failureCount := 1, currentTask := none, taskHistory := [] } }
      0).healthStatus = .DEGRADED := by
  have h := generateAgentReport_health_classification
    { id := "agent_w6", role := .EXPLORER, mission := "m", walletAddress := "addr"
      createdAt := 0, createdBy := "genesis_root", status := .ACTIVE
      metadata :=
        { creationTx := "", missionProgress := 0, lastActive := 0, successCount := 1
          failureCount := 1, currentTask := none, taskHistory := [] } }
    0
  refine (h.2.1 ?_).mpr ?_
  · rw [show successRateOf 1 1 = 1/2 by norm_num [successRateOf]]
    push_neg
    norm_num
  · left
    rw [show successRateOf 1 1 = 1/2 by norm_num [successRateOf]]
    norm_num

/-! ## Agent factory role selection (src/factory/agent-factory.ts) -/

/-- The five supported roles, in the Object.values(AgentRole) order used to
initialize the roleCounts map in AgentFactory.selectRole. -/
def allRoles : List AgentRole :=
  [.EXPLORER, .BUILDER, .ANALYST, .COORDINATOR, .GUARDIAN]

/-- Number of agents holding a role, as accumulated by the roleCounts map of
AgentFactory.selectRole (src/factory/agent-factory.ts lines 136-147). -/
def roleCount (agents : List Agent) (role : AgentRole) : ℕ :=
  (agents.filter (fun a => a.role = role)).length

/-- The minimum over the five role counts, from Math.min(...values)
(src/factory/agent-factory.ts line 149). -/
def minRoleCount (agents : List Agent) : ℕ :=
  min (roleCount agents .EXPLORER) (min (roleCount agents .BUILDER)
    (min (roleCount agents .ANALYST) (min (roleCount agents .COORDINATOR)
      (roleCount agents .GUARDIAN))))

/-- Roles whose count equals the minimum, in map insertion order
(src/factory/agent-factory.ts lines 150-152). -/
def underrepresentedRoles (agents : List Agent) : List AgentRole :=
  allRoles.filter (fun role => roleCount agents role = minRoleCount agents)

/-- From AgentFactory.selectRole (src/factory/agent-factory.ts
lines 134-156): pick index Math.floor(r * length) into the tied-role list,
where r is the Math.random() draw.  The .EXPLORER default stands for the
undefined JavaScript would yield on an out-of-range index, which is
unreachable for r in [0,1). -/
def selectRole (state : SystemState) (r : ℚ) : AgentRole :=
  let roles := underrepresentedRoles state.activeAgents
  roles.getD (⌊r * roles.length⌋).toNat .EXPLORER

theorem minRoleCount_attained (agents : List Agent) :
    ∃ role ∈ allRoles, roleCount agents role = minRoleCount agents := by
  have h : minRoleCount agents = roleCount agents .EXPLORER ∨
      minRoleCount agents = roleCount agents .BUILDER ∨
      minRoleCount agents = roleCount agents .ANALYST ∨
      minRoleCount agents = roleCount agents .COORDINATOR ∨
      minRoleCount agents = roleCount agents .GUARDIAN := by
    unfold minRoleCount
    omega
  rcases h with h | h | h | h | h
  · exact ⟨.EXPLORER, by simp [allRoles], h.symm⟩
  · exact ⟨.BUILDER, by simp [allRoles], h.symm⟩
  · exact ⟨.ANALYST, by simp [allRoles], h.symm⟩
  · exact ⟨.COORDINATOR, by simp [allRoles], h.symm⟩
  · exact ⟨.GUARDIAN, by simp [allRoles], h.symm⟩

theorem underrepresentedRoles_ne_nil (agents : List Agent) :
    underrepresentedRoles agents ≠ [] := by
  obtain ⟨role, hmem, hcount⟩ := minRoleCount_attained agents
  have : role ∈ underrepresentedRoles agents := by
    unfold underrepresentedRoles
    exact List.mem_filter.mpr ⟨hmem, by simp [hcount]⟩
  intro hnil
  rw [hnil] at this
  exact List.not_mem_nil role this

/-! ## Claim C7 -/

/-- Claim C7: for every state and every uniform draw r in [0,1), the role
returned by AgentFactory.selectRole has the minimum count among the five
supported roles over the active agents; and the draws selecting the i-th
tied role form exactly the interval [i/n, (i+1)/n) of length 1/n, so each of
the n tied roles is selected with equal probability. -/
theorem selectRole_least_represented_uniform (state : SystemState) (r : ℚ)
    (h0 : 0 ≤ r) (h1 : r < 1) :
    roleCount state.activeAgents (selectRole state r) =
      minRoleCount state.activeAgents ∧
    (∀ i : ℕ, i < (underrepresentedRoles state.activeAgents).length →
      (i : ℚ) / (underrepresentedRoles state.activeAgents).length ≤ r →
      r < ((i : ℚ) + 1) / (underrepresentedRoles state.activeAgents).length →
      selectRole state r =
        (underrepresentedRoles state.activeAgents).getD i .EXPLORER) := by
  have hne := underrepresentedRoles_ne_nil state.activeAgents
  have hlen : 0 < (underrepresentedRoles state.activeAgents).length :=
    List.length_pos.mpr hne
  have hlenq : (0:ℚ) < (underrepresentedRoles state.activeAgents).length := by
    exact_mod_cast hlen
  refine ⟨?_, ?_⟩
  · have hidx : (⌊r * (underrepresentedRoles state.activeAgents).length⌋).toNat <
        (underrepresentedRoles state.activeAgents).length := by
      have hfl : ⌊r * (underrepresentedRoles state.activeAgents).length⌋ <
          ((underrepresentedRoles state.activeAgents).length : ℤ) := by
        rw [Int.floor_lt]
        push_cast
        nlinarith
      omega
    unfold selectRole
    rw [List.getD_eq_getElem _ _ hidx]
    have hmem := List.getElem_mem hidx
    have := List.mem_filter.mp hmem
    simpa using of_decide_eq_true this.2
  · intro i hi hlo hhi
    have hfl : ⌊r * (underrepresentedRoles state.activeAgents).length⌋ = (i : ℤ) := by
      rw [Int.floor_eq_iff]
      constructor
      · push_cast
        rw [div_le_iff hlenq] at hlo
        linarith
      · push_cast
        rw [lt_div_iff hlenq] at hhi
        linarith
    unfold selectRole
    dsimp only
    rw [hfl]
    simp

/-- Witness for claim C7: with no agents every role count is 0, the tied
list is all five roles, and the draw r = 0 selects the first of them while
keeping the minimum count. -/
theorem selectRole_least_represented_uniform_witness :
    roleCount ([] : List Agent)
        (selectRole
          { agentCount := 0, activeAgents := [], recentDecisions := []
            walletBalances := [],
            evolutionMetrics :=
              { evolutionScore := 1/2, totalEvolutions := 0, lastEvolutionTime := 0 }
            timestamp := 0 }
          0) = minRoleCount ([] : List Agent) := by
  have h := selectRole_least_represented_uniform
    { agentCount := 0, activeAgents := [], recentDecisions := []
      walletBalances := [],
      evolutionMetrics :=
        { evolutionScore := 1/2, totalEvolutions := 0, lastEvolutionTime := 0 }
      timestamp := 0 }
    0 (by norm_num) (by norm_num)
  exact h.1

/-! ## Transactional submitter (src/solana/transactions.ts) -/

/-- Observable trace of one submitTransaction call: the final result, the
list of attempts made (attempt number paired with the index of the
blockhash fetch whose value the transaction carried during that attempt;
index 0 is the fetch done by buildMemoTransaction), and the sleeps
performed between attempts, in milliseconds. -/
structure SubmitTrace where
  result : Except String String
  attempts : List (ℕ × ℕ)
  waits : List ℕ
deriving Repr

/-- Retry loop of SolanaTransactions.submitTransaction
(src/solana/transactions.ts lines 67-104).  The network outcome of the
sendAndConfirmTransaction round for attempt n is the explicit parameter
outcome n.  On failure of attempt n < maxRetries the code sleeps 1000*n ms
and refreshes the blockhash before the next attempt; on failure of attempt
maxRetries the error is rethrown as-is.  The fuel argument counts the loop
iterations remaining; the fuel-exhausted branch corresponds to the
unreachable trailing throw after the for loop. -/
def submitLoop (outcome : ℕ → Except String String) (maxRetries : ℕ) :
    ℕ → ℕ → ℕ → SubmitTrace
  | _, _, 0 =>
    { result := .error "Transaction failed after all retries", attempts := [], waits := [] }
  | attempt, bh, fuel + 1 =>
    if attempt > maxRetries then
      { result := .error "Transaction failed after all retries", attempts := [], waits := [] }
    else
      match outcome attempt with
      | .ok signature =>
          { result := .ok signature, attempts := [(attempt, bh)], waits := [] }
      | .error e =>
          if attempt = maxRetries then
            { result := .error e, attempts := [(attempt, bh)], waits := [] }
          else
            let rest := submitLoop outcome maxRetries (attempt + 1) (bh + 1) fuel
            { result := rest.result
              attempts := (attempt, bh) :: rest.attempts
              waits := 1000 * attempt :: rest.waits }

/-- One submitTransaction call with the default maxRetries = 3, starting at
attempt 1 with the blockhash obtained by buildMemoTransaction (fetch 0). -/
def submitTransaction (outcome : ℕ → Except String String) : SubmitTrace :=
  submitLoop outcome 3 1 0 3

/-! ## Claim C3 -/

/-- Claim C3: submitTransaction performs at most 3 attempts; a success on
attempt n (with all earlier attempts failing) returns that attempt's
signature after waits of 1000*1, ..., 1000*(n-1) ms, each retry carrying a
freshly fetched blockhash (fetch indices 0, 1, 2 in order); and when all 3
attempts fail, the error of the 3rd attempt propagates verbatim with no
further attempts. -/
theorem submitTransaction_retry_policy (outcome : ℕ → Except String String) :
    (submitTransaction outcome).attempts.length ≤ 3 ∧
    (∀ s1, outcome 1 = .ok s1 →
      submitTransaction outcome =
        { result := .ok s1, attempts := [(1, 0)], waits := [] }) ∧
    (∀ e1 s2, outcome 1 = .error e1 → outcome 2 = .ok s2 →
      submitTransaction outcome =
        { result := .ok s2, attempts := [(1, 0), (2, 1)], waits := [1000] }) ∧
    (∀ e1 e2 s3, outcome 1 = .error e1 → outcome 2 = .error e2 →
      outcome 3 = .ok s3 →
      submitTransaction outcome =
        { result := .ok s3, attempts := [(1, 0), (2, 1), (3, 2)]
          waits := [1000, 2000] }) ∧
    (∀ e1 e2 e3, outcome 1 = .error e1 → outcome 2 = .error e2 →
      outcome 3 = .error e3 →
      submitTransaction outcome =
        { result := .error e3, attempts := [(1, 0), (2, 1), (3, 2)]
          waits := [1000, 2000] }) := by
  refine ⟨?_, ?_, ?_, ?_, ?_⟩
  · rcases h1 : outcome 1 with e1 | s1 <;>
      rcases h2 : outcome 2 with e2 | s2 <;>
        rcases h3 : outcome 3 with e3 | s3 <;>
          simp [submitTransaction, submitLoop, h1, h2, h3]
  · intro s1 h1
    simp [submitTransaction, submitLoop, h1]
  · intro e1 s2 h1 h2
    simp [submitTransaction, submitLoop, h1, h2]
  · intro e1 e2 s3 h1 h2 h3
    simp [submitTransaction, submitLoop, h1, h2, h3]
  · intro e1 e2 e3 h1 h2 h3
    simp [submitTransaction, submitLoop, h1, h2, h3]

/-- Witness for claim C3: a submission failing on attempts 1 and 2 and
succeeding on attempt 3 returns the attempt-3 signature after linear waits
of 1000 and 2000 ms. -/
theorem submitTransaction_retry_policy_witness :
    submitTransaction (fun n => if n < 3 then .error "blockhash expired" else .ok "sig3") =
      { result := .ok "sig3", attempts := [(1, 0), (2, 1), (3, 2)]
        waits := [1000, 2000] } := by
  exact (submitTransaction_retry_policy
      (fun n => if n < 3 then .error "blockhash expired" else .ok "sig3")).2.2.2.1
    "blockhash expired" "blockhash expired" "sig3" (by norm_num) (by norm_num) (by norm_num)

/-! ## Structural lemmas about selectDecision -/

theorem randomizeOptions_length (rand : ℕ → ℚ) :
    ∀ (i : ℕ) (options : List DecisionOption),
      (randomizeOptions rand i options).length = options.length := by
  intro i options
  induction options generalizing i with
  | nil => rfl
  | cons o rest ih => simp [randomizeOptions, ih]

theorem normalizeOptions_length (options : List DecisionOption) :
    (normalizeOptions options).length = options.length := by
  simp [normalizeOptions]

theorem normalize_randomize_ne_nil (rand : ℕ → ℚ) (options : List DecisionOption)
    (hne : options ≠ []) :
    normalizeOptions (randomizeOptions rand 0 options) ≠ [] := by
  intro h
  apply hne
  have h1 := normalizeOptions_length (randomizeOptions rand 0 options)
  have h2 := randomizeOptions_length rand 0 options
  rw [h] at h1
  simp only [List.length_nil] at h1
  exact List.length_eq_zero.mp (by omega)

theorem mem_randomizeOptions (rand : ℕ → ℚ) :
    ∀ (i : ℕ) (options : List DecisionOption) (o : DecisionOption),
      o ∈ randomizeOptions rand i options →
      ∃ o0 ∈ options, o.type = o0.type ∧ o.reasoning = o0.reasoning ∧
        o.parameters = o0.parameters := by
  intro i options
  induction options generalizing i with
  | nil => intro o h; simp [randomizeOptions] at h
  | cons x rest ih =>
      intro o h
      rw [randomizeOptions] at h
      rcases List.mem_cons.mp h with h | h
      · exact ⟨x, List.mem_cons_self x rest, by rw [h], by rw [h], by rw [h]⟩
      · obtain ⟨o0, ho0, hfields⟩ := ih (i + 1) o h
        exact ⟨o0, List.mem_cons_of_mem x ho0, hfields⟩

theorem mem_normalizeOptions (options : List DecisionOption) (o : DecisionOption)
    (h : o ∈ normalizeOptions options) :
    ∃ o1 ∈ options, o.type = o1.type ∧ o.reasoning = o1.reasoning ∧
      o.parameters = o1.parameters := by
  unfold normalizeOptions at h
  obtain ⟨o1, ho1, rfl⟩ := List.mem_map.mp h
  exact ⟨o1, ho1, rfl, rfl, rfl⟩

theorem selectLoop_mem (random : ℚ) :
    ∀ (l : List DecisionOption) (cumulative : ℚ) (o : DecisionOption),
      selectLoop random cumulative l = some o → o ∈ l := by
  intro l
  induction l with
  | nil => intro c o h; simp [selectLoop] at h
  | cons x rest ih =>
      intro c o h
      rw [selectLoop] at h
      split_ifs at h with hc
      · exact List.mem_cons.mpr (Or.inl (Option.some.inj h).symm)
      · exact List.mem_cons_of_mem x (ih _ o h)

theorem selectLoop_none_of_sum_lt (random : ℚ) :
    ∀ (l : List DecisionOption) (cumulative : ℚ),
      (∀ o ∈ l, 0 ≤ o.weight) → cumulative + totalWeight l < random →
      selectLoop random cumulative l = none := by
  intro l
  induction l with
  | nil => intro c _ _; rfl
  | cons x rest ih =>
      intro c hnn hsum
      have hxs : totalWeight (x :: rest) = x.weight + totalWeight rest := by
        simp [totalWeight]
      have hrest : 0 ≤ totalWeight rest := by
        have : ∀ q ∈ (rest.map (fun o => o.weight)), 0 ≤ q := by
          intro q hq
          obtain ⟨o, ho, rfl⟩ := List.mem_map.mp hq
          exact hnn o (List.mem_cons_of_mem x ho)
        exact List.sum_nonneg this
      rw [selectLoop, if_neg (by rw [hxs] at hsum; push_neg; linarith)]
      exact ih (c + x.weight) (fun o ho => hnn o (List.mem_cons_of_mem x ho))
        (by rw [hxs] at hsum; linarith)

/-! ## Claim C5 -/

/-- Claim C5: for every non-empty option list and every outcome of the
jitter draws and of the uniform selection draw, selectDecision returns an
option whose type, reasoning and parameters all belong to one input option
(no fabricated option); and whenever the cumulative (jittered, normalized,
nonnegative) weights fall short of the draw, the last option of the list is
returned, so selection never fails. -/
theorem selectDecision_member_of_input (rand : ℕ → ℚ) (random : ℚ)
    (options : List DecisionOption) (hne : options ≠ []) :
    (∃ o ∈ options,
      (selectDecision rand random options).type = o.type ∧
      (selectDecision rand random options).reasoning = o.reasoning ∧
      (selectDecision rand random options).parameters = o.parameters) ∧
    ((∀ o ∈ normalizeOptions (randomizeOptions rand 0 options), 0 ≤ o.weight) →
      totalWeight (normalizeOptions (randomizeOptions rand 0 options)) < random →
      selectDecision rand random options =
        (normalizeOptions (randomizeOptions rand 0 options)).getLast
          (normalize_randomize_ne_nil rand options hne)) := by
  have hnormne := normalize_randomize_ne_nil rand options hne
  constructor
  · unfold selectDecision
    dsimp only
    rcases hloop : selectLoop random 0
        (normalizeOptions (randomizeOptions rand 0 options)) with _ | o
    · have hlast := List.getLast?_eq_getLast_of_ne_nil hnormne
      rw [hlast]
      simp only [Option.getD_some]
      have hmem := List.getLast_mem hnormne
      obtain ⟨o1, ho1, hf⟩ :=
        mem_normalizeOptions _ _ hmem
      obtain ⟨o0, ho0, hf0⟩ := mem_randomizeOptions rand 0 options o1 ho1
      exact ⟨o0, ho0, by rw [hf.1, hf0.1], by rw [hf.2.1, hf0.2.1],
        by rw [hf.2.2, hf0.2.2]⟩
    · have hmem := selectLoop_mem random _ 0 o hloop
      obtain ⟨o1, ho1, hf⟩ := mem_normalizeOptions _ _ hmem
      obtain ⟨o0, ho0, hf0⟩ := mem_randomizeOptions rand 0 options o1 ho1
      exact ⟨o0, ho0, by rw [hf.1, hf0.1], by rw [hf.2.1, hf0.2.1],
        by rw [hf.2.2, hf0.2.2]⟩
  · intro hnn hsum
    unfold selectDecision
    dsimp only
    rw [selectLoop_none_of_sum_lt random _ 0 hnn (by linarith)]
    rw [List.getLast?_eq_getLast_of_ne_nil hnormne]
    rfl

/-- Sample options used by witnesses. -/
def sampleOptionA : DecisionOption :=
  { type := .CREATE_AGENT, weight := 1/2, reasoning := "a", parameters := [] }

/-- Second sample option used by witnesses. -/
def sampleOptionB : DecisionOption :=
  { type := .WAIT_AND_OBSERVE, weight := 1/2, reasoning := "b", parameters := [] }

/-- Witness for claim C5: with two equal-weight options, neutral jitter
draws (r = 1/2 leaves weights unchanged) and an out-of-range selection draw
of 2, the returned option still comes from the input set, via the
last-option fallback. -/
theorem selectDecision_member_of_input_witness :
    (∃ o ∈ [sampleOptionA, sampleOptionB],
      (selectDecision (fun _ => 1/2) 2 [sampleOptionA, sampleOptionB]).type = o.type ∧
      (selectDecision (fun _ => 1/2) 2 [sampleOptionA, sampleOptionB]).reasoning =
        o.reasoning ∧
      (selectDecision (fun _ => 1/2) 2 [sampleOptionA, sampleOptionB]).parameters =
        o.parameters) ∧
    selectDecision (fun _ => 1/2) 2 [sampleOptionA, sampleOptionB] =
      (normalizeOptions
        (randomizeOptions (fun _ => 1/2) 0 [sampleOptionA, sampleOptionB])).getLast
        (normalize_randomize_ne_nil (fun _ => 1/2) [sampleOptionA, sampleOptionB]
          (by simp)) := by
  have h := selectDecision_member_of_input (fun _ => 1/2) 2
    [sampleOptionA, sampleOptionB] (by simp)
  refine ⟨h.1, h.2 ?_ ?_⟩
  · intro o ho
    simp only [normalizeOptions, randomizeOptions, applyRandomness, totalWeight,
      sampleOptionA, sampleOptionB, List.map, List.sum_cons, List.sum_nil,
      List.mem_cons, List.not_mem_nil, or_false] at ho
    rcases ho with rfl | rfl <;> norm_num
  · simp only [normalizeOptions, randomizeOptions, applyRandomness, totalWeight,
      sampleOptionA, sampleOptionB, List.map, List.sum_cons, List.sum_nil]
    norm_num

/-! ## Reason and Decide phases (src/core/genesis.ts) -/

/-- Recommendation computed by GenesisAgent.reason (src/core/genesis.ts
lines 138-156): generateOptions on the observed state followed by
selectDecision, with the engine's current weight vector w. -/
def reasonRecommendation (w : Weights) (state : SystemState) (rand : ℕ → ℚ)
    (random : ℚ) : DecisionOption :=
  selectDecision rand random (generateOptions w state)

/-- Decide phase, from GenesisAgent.decide (src/core/genesis.ts
lines 161-170): createDecision on the recommendation, made by genesis_root. -/
def decidePhase (recommendation : DecisionOption) (idSuffix : String) (now : ℤ) :
    Decision :=
  createDecision recommendation "genesis_root" idSuffix now

/-- A state with no agents and no history, as observed over an empty store
(evolutionScore 0.5 as in the unit-test fixtures). -/
def emptySystemState : SystemState :=
  { agentCount := 0, activeAgents := [], recentDecisions := [], walletBalances := []
    evolutionMetrics :=
      { evolutionScore := 1/2, totalEvolutions := 0, lastEvolutionTime := 0 }
    timestamp := 0 }

/-! ## Claim C4 -/

/-- Counterexample for claim C4: on the empty state with neutral jitter
(all draws 1/2, factor 1) and selection draw 0, the engine picks the
CREATE_AGENT option, whose pre-jitter post-clamp weight in generateOptions
is 21/40 = 0.525; but the decision's confidence is the post-normalization
weight (21/40)/(23/25) = 105/184, not the pre-jitter weight. -/
theorem decide_confidence_not_prejitter_weight :
    (reasonRecommendation initialWeights emptySystemState (fun _ => 1/2) 0).type =
      DecisionType.CREATE_AGENT ∧
    (∀ o ∈ generateOptions initialWeights emptySystemState,
      o.type = DecisionType.CREATE_AGENT →
      (decidePhase
        (reasonRecommendation initialWeights emptySystemState (fun _ => 1/2) 0)
        "cafe" 0).confidence ≠ o.weight) := by
  have hsel : reasonRecommendation initialWeights emptySystemState (fun _ => 1/2) 0 =
      { type := .CREATE_AGENT, weight := 105/184
        reasoning := getCreateAgentReasoning emptySystemState, parameters := [] } := by
    unfold reasonRecommendation selectDecision generateOptions
    norm_num [calculateCreateAgentWeight, calculateCoordinateWeight,
      calculateEvolveWeight, calculateWaitWeight, calculateDelegateTaskWeight,
      calculateAnalyzeWeight, clampWeight, initialWeights, emptySystemState,
      childAgents, randomizeOptions, applyRandomness, normalizeOptions, totalWeight,
      selectLoop]
  constructor
  · rw [hsel]
  · intro o ho hot
    rw [hsel]
    unfold generateOptions at ho
    norm_num [calculateCreateAgentWeight, calculateCoordinateWeight,
      calculateEvolveWeight, calculateWaitWeight, calculateDelegateTaskWeight,
      calculateAnalyzeWeight, clampWeight, initialWeights, emptySystemState,
      childAgents, List.mem_cons] at ho
    unfold decidePhase createDecision
    rcases ho with rfl | rfl | rfl | rfl | rfl | rfl <;> simp_all <;> norm_num

/-- Claim C4 as amended: the Decision produced by the Decide phase carries
the fresh id stamped from the random suffix, the current timestamp, the
genesis_root author, and a confidence equal to the selected option's
post-jitter, renormalized weight — the weight as returned by selectDecision,
not the pre-jitter weight of generateOptions — with type, reasoning and
parameters copied from that selected option. -/
theorem decide_stamps_selected_weight (w : Weights) (state : SystemState)
    (rand : ℕ → ℚ) (random : ℚ) (idSuffix : String) (now : ℤ) :
    (decidePhase (reasonRecommendation w state rand random) idSuffix now).id =
      "decision_" ++ idSuffix ∧
    (decidePhase (reasonRecommendation w state rand random) idSuffix now).timestamp =
      now ∧
    (decidePhase (reasonRecommendation w state rand random) idSuffix now).madeBy =
      "genesis_root" ∧
    (decidePhase (reasonRecommendation w state rand random) idSuffix now).type =
      (reasonRecommendation w state rand random).type ∧
    (decidePhase (reasonRecommendation w state rand random) idSuffix now).reasoning =
      (reasonRecommendation w state rand random).reasoning ∧
    (decidePhase (reasonRecommendation w state rand random) idSuffix now).parameters =
      (reasonRecommendation w state rand random).parameters ∧
    (decidePhase (reasonRecommendation w state rand random) idSuffix now).confidence =
      (reasonRecommendation w state rand random).weight :=
  ⟨rfl, rfl, rfl, rfl, rfl, rfl, rfl⟩

/-! ## Claim C8 -/

/-- A reachable weight state: five failed CREATE_AGENT cycles drive that
weight to the floor 0.05, then fifteen successful COORDINATE_AGENTS cycles
drive that weight to the cap 0.9. -/
def skewedWeights : Weights :=
  applyUpdates initialWeights
    (List.replicate 5 (DecisionType.CREATE_AGENT, false) ++
      List.replicate 15 (DecisionType.COORDINATE_AGENTS, true))

theorem applyUpdates_append (w : Weights) (l1 l2 : List (DecisionType × Bool)) :
    applyUpdates w (l1 ++ l2) = applyUpdates (applyUpdates w l1) l2 := by
  unfold applyUpdates
  exact List.foldl_append ..

theorem applyUpdates_replicate (t : DecisionType) (s : Bool) :
    ∀ (n : ℕ) (w : Weights),
      applyUpdates w (List.replicate n (t, s)) = repeatUpdate t s n w := by
  intro n
  induction n with
  | zero => intro w; rfl
  | succ n ih =>
      intro w
      rw [List.replicate_succ]
      show applyUpdates (updateWeights w t s) (List.replicate n (t, s)) = _
      rw [ih]
      simp only [repeatUpdate, Function.iterate_succ_apply]

theorem repeatUpdate_other (t t' : DecisionType) (s : Bool) (h : t' ≠ t) :
    ∀ (n : ℕ) (w : Weights), repeatUpdate t s n w t' = w t' := by
  intro n
  induction n with
  | zero => intro w; rfl
  | succ n ih =>
      intro w
      rw [repeatUpdate, Function.iterate_succ_apply]
      have := ih (updateWeights w t s)
      rw [repeatUpdate] at this
      rw [this]
      unfold updateWeights
      rw [if_neg h]

theorem skewedWeights_CREATE : skewedWeights DecisionType.CREATE_AGENT = 1/20 := by
  unfold skewedWeights
  rw [applyUpdates_append, applyUpdates_replicate, applyUpdates_replicate]
  rw [repeatUpdate_other _ _ _ (by decide)]
  rw [repeatUpdate_failure_closed _ _ (by norm_num [initialWeights])
    (by norm_num [initialWeights])]
  norm_num [initialWeights]

theorem skewedWeights_COORDINATE :
    skewedWeights DecisionType.COORDINATE_AGENTS = 9/10 := by
  unfold skewedWeights
  rw [applyUpdates_append, applyUpdates_replicate, applyUpdates_replicate]
  have hother : repeatUpdate DecisionType.CREATE_AGENT false 5 initialWeights
      DecisionType.COORDINATE_AGENTS = 3/20 := by
    rw [repeatUpdate_other _ _ _ (by decide)]
    norm_num [initialWeights]
  rw [repeatUpdate_success_closed _ _ (by rw [hother]; norm_num)
    (by rw [hother]; norm_num)]
  rw [hother]
  norm_num

/-- Counterexample for claim C8: the base-weight state with CREATE_AGENT at
the floor 0.05 and COORDINATE_AGENTS at the cap 0.9 is reachable from the
constructor state (5 CREATE_AGENT failures then 15 COORDINATE_AGENTS
successes); on the empty state (0 entities) generateOptions then gives the
CREATE_AGENT option pre-jitter weight 7/80 = 0.0875, strictly below the
COORDINATE_AGENTS option's 9/20 = 0.45, contradicting the claim as
quantified over all reachable base-weight states. -/
theorem generateOptions_zero_agents_counterexample :
    ∃ oc ∈ generateOptions skewedWeights emptySystemState,
      oc.type = DecisionType.CREATE_AGENT ∧
      ∃ ok ∈ generateOptions skewedWeights emptySystemState,
        ok.type = DecisionType.COORDINATE_AGENTS ∧ oc.weight < ok.weight := by
  refine ⟨_, List.mem_cons_self _ _, rfl,
    _, List.mem_cons_of_mem _ (List.mem_cons_self _ _), rfl, ?_⟩
  show calculateCreateAgentWeight skewedWeights emptySystemState <
    calculateCoordinateWeight skewedWeights emptySystemState
  unfold calculateCreateAgentWeight calculateCoordinateWeight
  rw [skewedWeights_CREATE, skewedWeights_COORDINATE]
  norm_num [emptySystemState, clampWeight]

/-- Claim C8 as amended: with the constructor's initial base weights, the
pre-jitter CREATE_AGENT weight strictly exceeds the pre-jitter
COORDINATE_AGENTS weight on any state observed with 0 entities, and the
pre-jitter COORDINATE_AGENTS weight strictly exceeds the CREATE_AGENT
weight on any state observed with 6 active entities; and generateOptions
indeed carries exactly these calculated weights on its CREATE_AGENT and
COORDINATE_AGENTS options. -/
theorem generateOptions_initial_weights_bias (state0 state6 : SystemState)
    (h0 : state0.agentCount = 0) (h6 : state6.agentCount = 6) :
    calculateCoordinateWeight initialWeights state0 <
      calculateCreateAgentWeight initialWeights state0 ∧
    calculateCreateAgentWeight initialWeights state6 <
      calculateCoordinateWeight initialWeights state6 ∧
    (∀ state : SystemState, ∃ oc ∈ generateOptions initialWeights state,
      oc.type = DecisionType.CREATE_AGENT ∧
      oc.weight = calculateCreateAgentWeight initialWeights state) ∧
    (∀ state : SystemState, ∃ ok ∈ generateOptions initialWeights state,
      ok.type = DecisionType.COORDINATE_AGENTS ∧
      ok.weight = calculateCoordinateWeight initialWeights state) := by
  refine ⟨?_, ?_, ?_, ?_⟩
  · unfold calculateCreateAgentWeight calculateCoordinateWeight
    rw [h0]
    norm_num [initialWeights, clampWeight]
  · unfold calculateCreateAgentWeight calculateCoordinateWeight
    rw [h6]
    norm_num [initialWeights, clampWeight]
  · intro state
    exact ⟨_, List.mem_cons_self _ _, rfl, rfl⟩
  · intro state
    exact ⟨_, List.mem_cons_of_mem _ (List.mem_cons_self _ _), rfl, rfl⟩

/-- Witness for claim C8 (amended): the initial-weight bias evaluated on
the concrete empty state and on a state observed with 6 active entities. -/
theorem generateOptions_initial_weights_bias_witness :
    calculateCoordinateWeight initialWeights emptySystemState <
      calculateCreateAgentWeight initialWeights emptySystemState ∧
    calculateCreateAgentWeight initialWeights
        { emptySystemState with agentCount := 6 } <
      calculateCoordinateWeight initialWeights
        { emptySystemState with agentCount := 6 } := by
  have h := generateOptions_initial_weights_bias emptySystemState
    { emptySystemState with agentCount := 6 } rfl rfl
  exact ⟨h.1, h.2.1⟩

/-! ## Durable memory store write path

The sources of src/memory/storage.ts and src/memory/memory-system.ts are not
among the provided files (only tests/unit/storage.test.ts is), so the write
path is modelled from the specification of the Durable Memory Store. -/

/-- Modelled from the spec: the on-disk footprint of one logical collection
(src/memory/storage.ts, absent from the provided sources): the live
collection file, its temporary sibling and its backup sibling, each either
absent or holding one serialized record.  JSON serialization is abstracted
as the identity on records, so byte-for-byte equality of file contents is
equality of the stored records. -/
structure CollectionFile (α : Type) where
  live : Option α
  tmp : Option α
  backup : Option α
deriving DecidableEq, Repr

/-- Modelled from the spec: step 1 of the write path, serialize the record
and write it to the temporary location. -/
def writeTempStep {α : Type} (fs : CollectionFile α) (record : α) : CollectionFile α :=
  { fs with tmp := some record }

/-- Modelled from the spec: step 2 of the write path, copy the current live
file to the backup location. -/
def backupStep {α : Type} (fs : CollectionFile α) : CollectionFile α :=
  { fs with backup := fs.live }

/-- Modelled from the spec: step 3 of the write path, atomically replace
the live location with the temporary one. -/
def renameStep {α : Type} (fs : CollectionFile α) : CollectionFile α :=
  { fs with live := fs.tmp, tmp := none }

/-- Modelled from the spec: the complete atomic write of one record to one
logical collection file. -/
def atomicWrite {α : Type} (fs : CollectionFile α) (record : α) : CollectionFile α :=
  renameStep (backupStep (writeTempStep fs record))

/-- Every on-disk state that occurs during one atomic write, in order:
before the write, after the temp write, after the backup copy, and after
the final rename. -/
def writeStates {α : Type} (fs : CollectionFile α) (record : α) :
    List (CollectionFile α) :=
  [fs, writeTempStep fs record, backupStep (writeTempStep fs record),
    atomicWrite fs record]

/-- Modelled from the spec: what a reader (in particular a fresh store
instance loading from the same path) observes for the collection: the
contents of the live file. -/
def readLive {α : Type} (fs : CollectionFile α) : Option α := fs.live

/-! ## Claim C9 -/

/-- Claim C9: saving any record (entity, decision log entry or evolution
event alike, the content type is universally quantified) and re-reading the
collection from the same path with a fresh instance yields exactly the
record that was saved; and at every intermediate state of the write path a
reader sees either the old live file or the new record in full — never a
partially written file. -/
theorem atomicWrite_round_trip_and_atomicity {α : Type} (fs : CollectionFile α)
    (record : α) :
    readLive (atomicWrite fs record) = some record ∧
    ∀ s ∈ writeStates fs record, readLive s = fs.live ∨ readLive s = some record := by
  constructor
  · rfl
  · intro s hs
    simp only [writeStates, List.mem_cons, List.not_mem_nil, or_false] at hs
    rcases hs with rfl | rfl | rfl | rfl
    · exact Or.inl rfl
    · exact Or.inl rfl
    · exact Or.inl rfl
    · exact Or.inr rfl

/-- Witness for claim C9: writing a concrete agent record over a non-empty
collection; the mid-write state after the backup copy still exposes the old
live contents. -/
theorem atomicWrite_round_trip_and_atomicity_witness :
    readLive (atomicWrite ⟨some "oldAgent", none, none⟩ "newAgent") = some "newAgent" ∧
    (readLive (backupStep (writeTempStep ⟨some "oldAgent", none, none⟩ "newAgent")) =
        some "oldAgent" ∨
      readLive (backupStep (writeTempStep ⟨some "oldAgent", none, none⟩ "newAgent")) =
        some "newAgent") := by
  have h := atomicWrite_round_trip_and_atomicity
    (⟨some "oldAgent", none, none⟩ : CollectionFile String) "newAgent"
  exact ⟨h.1, h.2 _ (by simp [writeStates])⟩

/-! ## Task executor (src/core/task-executor.ts) -/

/-- Task lifecycle status, from src/types/system.ts (TaskAssignment.status). -/
inductive TaskStatus where
  | PENDING
  | IN_PROGRESS
  | COMPLETED
  | FAILED
deriving DecidableEq, Repr

/-- Task assignment record, from src/types/system.ts (TaskAssignment). -/
structure TaskAssignment where
  id : String
  agentId : String
  type : String
  description : String
  assignedAt : ℤ
  completedAt : Option ℤ
  status : TaskStatus
  result : Option String
  onChainTx : Option String
deriving DecidableEq, Repr

/-- String name of a role, as interpolated into task type and description. -/
def roleName : AgentRole → String
  | .EXPLORER => "EXPLORER"
  | .BUILDER => "BUILDER"
  | .ANALYST => "ANALYST"
  | .COORDINATOR => "COORDINATOR"
  | .GUARDIAN => "GUARDIAN"

/-- From TaskExecutor.executeTask (src/core/task-executor.ts lines 30-104).
The outcome of the role-specific task body (the awaited execute*Task call,
which may throw) is the explicit parameter roleResult; the outcome of
logTaskOnChain — which catches its own errors internally and returns
undefined on failure (lines 306-336) — is the parameter chainTx; the fresh
task id suffix and the two Date.now() readings are explicit.  The saveAgent
calls are modelled as the returned agent value, i.e. they are assumed to
succeed. -/
def executeTask (agent : Agent) (roleResult : Except String String)
    (chainTx : Option String) (idSuffix : String) (taskStart endTime : ℤ) :
    TaskAssignment × Agent :=
  let taskId := "task_" ++ idSuffix
  let task : TaskAssignment :=
    { id := taskId, agentId := agent.id, type := roleName agent.role ++ "_TASK"
      description := "", assignedAt := taskStart, completedAt := none
      status := .IN_PROGRESS, result := none, onChainTx := none }
  match roleResult with
  | .ok result =>
      ({ task with
          status := .COMPLETED
          completedAt := some endTime
          result := some result
          description := roleName agent.role ++ " task: " ++ result.take 80
          onChainTx := chainTx },
        { agent with metadata :=
          { agent.metadata with
              successCount := agent.metadata.successCount + 1
              lastActive := endTime
              currentTask := none
              taskHistory := agent.metadata.taskHistory ++ [taskId]
              missionProgress := min 100 (agent.metadata.missionProgress + 10) } })
  | .error msg =>
      ({ task with
          status := .FAILED
          completedAt := some endTime
          result := some msg },
        { agent with metadata :=
          { agent.metadata with
              failureCount := agent.metadata.failureCount + 1
              currentTask := none } })

/-! ## Claim C10 -/

/-- Claim C10: executeTask always returns an assignment whose status is
COMPLETED or FAILED (it never rethrows, given that saveAgent succeeds); in
both outcomes the agent's currentTask is cleared, exactly one of
successCount or failureCount is incremented by one, and a failed on-chain
logging step alone (chainTx = none) leaves the status COMPLETED with the
task's onChainTx merely absent. -/
theorem executeTask_outcomes (agent : Agent) (roleResult : Except String String)
    (chainTx : Option String) (idSuffix : String) (taskStart endTime : ℤ) :
    ((executeTask agent roleResult chainTx idSuffix taskStart endTime).1.status =
        .COMPLETED ∨
      (executeTask agent roleResult chainTx idSuffix taskStart endTime).1.status =
        .FAILED) ∧
    (executeTask agent roleResult chainTx idSuffix taskStart
        endTime).2.metadata.currentTask = none ∧
    (executeTask agent roleResult chainTx idSuffix taskStart
          endTime).2.metadata.successCount +
        (executeTask agent roleResult chainTx idSuffix taskStart
          endTime).2.metadata.failureCount =
      agent.metadata.successCount + agent.metadata.failureCount + 1 ∧
    (∀ result, roleResult = .ok result →
      (executeTask agent roleResult chainTx idSuffix taskStart endTime).1.status =
          .COMPLETED ∧
      (executeTask agent roleResult chainTx idSuffix taskStart
          endTime).2.metadata.successCount = agent.metadata.successCount + 1 ∧
      (executeTask agent roleResult chainTx idSuffix taskStart
          endTime).2.metadata.failureCount = agent.metadata.failureCount ∧
      (executeTask agent roleResult chainTx idSuffix taskStart
          endTime).1.onChainTx = chainTx) ∧
    (∀ msg, roleResult = .error msg →
      (executeTask agent roleResult chainTx idSuffix taskStart endTime).1.status =
          .FAILED ∧
      (executeTask agent roleResult chainTx idSuffix taskStart
          endTime).2.metadata.failureCount = agent.metadata.failureCount + 1 ∧
      (executeTask agent roleResult chainTx idSuffix taskStart
          endTime).2.metadata.successCount = agent.metadata.successCount ∧
      (executeTask agent roleResult chainTx idSuffix taskStart
          endTime).1.onChainTx = none) := by
  rcases roleResult with msg | result
  · refine ⟨Or.inr rfl, rfl, by simp [executeTask]; omega, ?_, ?_⟩
    · intro r hr; cases hr
    · intro m hm; exact ⟨rfl, rfl, rfl, rfl⟩
  · refine ⟨Or.inl rfl, rfl, by simp [executeTask]; omega, ?_, ?_⟩
    · intro r hr; exact ⟨rfl, rfl, rfl, rfl⟩
    · intro m hm; cases hm

/-- Witness for claim C10: a role task that succeeds while the on-chain
logging returns no signature still completes the task, increments only the
success counter, clears the current task, and leaves onChainTx absent. -/
theorem executeTask_outcomes_witness :
    (executeTask
      { id := "agent_w10", role := .GUARDIAN, mission := "m", walletAddress := "addr"
        createdAt := 0, createdBy := "genesis_root", status := .ACTIVE
        metadata :=
          { creationTx := "", missionProgress := 0, lastActive := 0, successCount := 2
            failureCount := 1, currentTask := some "GUARDIAN_TASK"
            taskHistory := [] } }
      (.ok "sweep done") none "beef" 0 5).1.status = TaskStatus.COMPLETED ∧
    (executeTask
      { id := "agent_w10", role := .GUARDIAN, mission := "m", walletAddress := "addr"
        createdAt := 0, createdBy := "genesis_root", status := .ACTIVE
        metadata :=
          { creationTx := "", missionProgress := 0, lastActive := 0, successCount := 2
            failureCount := 1, currentTask := some "GUARDIAN_TASK"
            taskHistory := [] } }
      (.ok "sweep done") none "beef" 0 5).2.metadata.currentTask = none ∧
    (executeTask
      { id := "agent_w10", role := .GUARDIAN, mission := "m", walletAddress := "addr"
        createdAt := 0, createdBy := "genesis_root", status := .ACTIVE
        metadata :=
          { creationTx := "", missionProgress := 0, lastActive := 0, successCount := 2
            failureCount := 1, currentTask := some "GUARDIAN_TASK"
            taskHistory := [] } }
      (.ok "sweep done") none "beef" 0 5).2.metadata.successCount = 3 ∧
    (executeTask
      { id := "agent_w10", role := .GUARDIAN, mission := "m", walletAddress := "addr"
        createdAt := 0, createdBy := "genesis_root", status := .ACTIVE
        metadata :=
          { creationTx := "", missionProgress := 0, lastActive := 0, successCount := 2
            failureCount := 1, currentTask := some "GUARDIAN_TASK"
            taskHistory := [] } }
      (.ok "sweep done") none "beef" 0 5).1.onChainTx = none := by
  have h := executeTask_outcomes
    { id := "agent_w10", role := .GUARDIAN, mission := "m", walletAddress := "addr"
      createdAt := 0, createdBy := "genesis_root", status := .ACTIVE
      metadata :=
        { creationTx := "", missionProgress := 0, lastActive := 0, successCount := 2
          failureCount := 1, currentTask := some "GUARDIAN_TASK", taskHistory := [] } }
    (.ok "sweep done") none "beef" 0 5
  obtain ⟨-, hclear, -, hok, -⟩ := h
  obtain ⟨hstatus, hsucc, -, htx⟩ := hok "sweep done" rfl
  exact ⟨hstatus, hclear, hsucc, htx⟩

end Genesis
